import Mathlib

/-!
Verification development for the peer-session orchestrator implemented in
`src/hooks/useWebRTC.ts`.  The TypeScript hook is shallowly embedded: the
mutable refs (`connectionsRef`, `participants`, `screenConnections`, ...)
become fields of an explicit state record, PeerJS channel objects become
numeric handles (identity is what matters), and every handler becomes a pure
function from state to state together with an explicit record of its
observable effects (messages sent over data connections, media calls placed,
channels closed).  Timestamps (`Date.now()`) are abstracted to `0`; timer
callbacks are modelled as explicit events or as pending actions returned to
the caller, matching the single-actor scheduling of the source.
-/

namespace WebRTC

/-- Stream kind tag, `"camera" | "screen"` in the source. -/
inductive StreamType where
  | camera
  | screen
deriving Repr, DecidableEq

/-- UI transition state of a participant tile. -/
inductive TransitionState where
  | connecting
  | connected
  | disconnecting
  | reconnecting
deriving Repr, DecidableEq

/-- A PeerJS `DataConnection`: identified by a handle, with its `open` flag. -/
structure DataConn where
  handle : Nat
  isOpen : Bool
deriving Repr, DecidableEq

/-- A PeerJS `MediaConnection`: identified by a handle (object identity). -/
structure MediaConn where
  handle : Nat
deriving Repr, DecidableEq

/-- One entry of `connectionsRef.current`: per-peer optional channels. -/
structure PeerConns where
  mediaConnection : Option MediaConn := none
  dataConnection : Option DataConn := none
deriving Repr, DecidableEq

/-- The `Participant` interface of the source.  `stream` is a handle to the
`MediaStream` object held by reference.  Optional fields (`isScreenSharing?`,
`streamType?`, `transitionState?`) are `Option`s, `none` meaning `undefined`. -/
structure Participant where
  id : String
  username : String
  stream : Nat
  isCreator : Bool
  isScreenSharing : Option Bool := none
  streamType : Option StreamType := none
  transitionState : Option TransitionState := none
deriving Repr, DecidableEq

/-- The `DataMessage` envelope sent over data connections.  Fields absent from
a given message are `none` (`undefined`).  `timestamp` is abstracted to `0`. -/
structure Msg where
  type : String
  peerId : Option String := none
  username : Option String := none
  peers : Option (List String) := none
  isSharing : Option Bool := none
  sharingPeerId : Option String := none
  streamType : Option StreamType := none
  urgent : Option Bool := none
  forceRefresh : Option Bool := none
deriving Repr, DecidableEq

/-- A JavaScript object keyed by peer id, in insertion order. -/
abbrev Registry (α : Type) : Type := List (String × α)

/-- Lookup `obj[key]` in an insertion-ordered object. -/
def lookupConn {α : Type} : Registry α → String → Option α
  | [], _ => none
  | (k, v) :: rest, key => if k = key then some v else lookupConn rest key

/-- Assignment `obj[key] = v`: updates in place if the key exists, otherwise
appends (JavaScript string-keyed object semantics). -/
def setConn {α : Type} : Registry α → String → α → Registry α
  | [], key, v => [(key, v)]
  | (k, w) :: rest, key, v =>
      if k = key then (k, v) :: rest else (k, w) :: setConn rest key v

/-- Deletion `delete obj[key]`. -/
def removeConn {α : Type} : Registry α → String → Registry α
  | [], _ => []
  | (k, v) :: rest, key =>
      if k = key then removeConn rest key else (k, v) :: removeConn rest key

theorem lookupConn_setConn_self {α : Type} (l : Registry α) (k : String) (v : α) :
    lookupConn (setConn l k v) k = some v := by
  induction l with
  | nil => simp [setConn, lookupConn]
  | cons hd tl ih =>
      obtain ⟨k', w⟩ := hd
      by_cases h : k' = k
      · simp [setConn, lookupConn, h]
      · simp [setConn, lookupConn, h, ih]

theorem lookupConn_setConn_ne {α : Type} (l : Registry α) (k k' : String) (v : α)
    (h : k' ≠ k) : lookupConn (setConn l k v) k' = lookupConn l k' := by
  induction l with
  | nil => simp [setConn, lookupConn, Ne.symm h]
  | cons hd tl ih =>
      obtain ⟨k₀, w⟩ := hd
      by_cases h0 : k₀ = k
      · subst h0
        simp [setConn, lookupConn, Ne.symm h]
      · simp [setConn, lookupConn, h0, ih]

theorem lookupConn_setConn_isSome {α : Type} (l : Registry α) (k k' : String) (v : α)
    (h : (lookupConn l k').isSome) : (lookupConn (setConn l k v) k').isSome := by
  by_cases hk : k' = k
  · subst hk
    simp [lookupConn_setConn_self]
  · rwa [lookupConn_setConn_ne l k k' v hk]

theorem lookupConn_removeConn_self {α : Type} (l : Registry α) (k : String) :
    lookupConn (removeConn l k) k = none := by
  induction l with
  | nil => simp [removeConn, lookupConn]
  | cons hd tl ih =>
      obtain ⟨k', v⟩ := hd
      by_cases h : k' = k
      · simp [removeConn, h, ih]
      · simp [removeConn, lookupConn, h, ih]

theorem lookupConn_removeConn_ne {α : Type} (l : Registry α) (k k' : String)
    (h : k' ≠ k) : lookupConn (removeConn l k) k' = lookupConn l k' := by
  induction l with
  | nil => simp [removeConn]
  | cons hd tl ih =>
      obtain ⟨k₀, v⟩ := hd
      by_cases h0 : k₀ = k
      · subst h0
        simp [removeConn, lookupConn, Ne.symm h, ih]
      · simp [removeConn, lookupConn, h0, ih]

/-- Topology mode, `"mesh" | "star"` in the source. -/
inductive Topology where
  | mesh
  | star
deriving Repr, DecidableEq

/-- The mutable state of the `useWebRTC` hook that the verified handlers read
and write: the identity and role of the local peer, the React state cells
(`localStream`, `screenStream`, `isScreenSharing`, `participants`, `error`,
`networkTopology`, `transitionsEnabled`), the `connectionsRef` registry, the
ad-hoc `peer.screenConnections` map of `startScreenShare`, and a counter used
to allocate fresh channel handles.  `peerOpen` models `peerRef.current` being
non-null. -/
structure OrchState where
  roomId : String
  selfId : String
  isCreator : Bool
  localUsername : String
  peerOpen : Bool := true
  localStream : Option Nat := none
  screenStream : Option Nat := none
  isScreenSharing : Bool := false
  networkTopology : Topology := Topology.mesh
  transitionsEnabled : Bool := true
  connections : Registry PeerConns := []
  screenConnections : Registry Nat := []
  participants : List Participant := []
  error : Option String := none
  nextHandle : Nat := 0
deriving Repr, DecidableEq

/-- Observable effects of one handler run: messages sent over individual data
connections (receiver id, message), media calls placed (`peer.call`, with the
handle of the new `MediaConnection`), data connections opened (`peer.connect`,
with the handle of the new `DataConnection`), and channels explicitly closed
(`.close()`), by handle. -/
structure Effects where
  sent : List (String × Msg) := []
  mediaCallsPlaced : List (String × Nat) := []
  dataConnsOpened : List (String × Nat) := []
  closedMedia : List Nat := []
  closedData : List Nat := []
deriving Repr, DecidableEq

/-- Sequential composition of effect records. -/
def Effects.app (a b : Effects) : Effects :=
  { sent := a.sent ++ b.sent
    mediaCallsPlaced := a.mediaCallsPlaced ++ b.mediaCallsPlaced
    dataConnsOpened := a.dataConnsOpened ++ b.dataConnsOpened
    closedMedia := a.closedMedia ++ b.closedMedia
    closedData := a.closedData ++ b.closedData }

theorem Effects.app_sent (a b : Effects) : (Effects.app a b).sent = a.sent ++ b.sent := rfl

theorem Effects.app_calls (a b : Effects) :
    (Effects.app a b).mediaCallsPlaced = a.mediaCallsPlaced ++ b.mediaCallsPlaced := rfl

/-- Embeds `sendDataToAll` (`useWebRTC.ts` lines 2258-2266): iterate over the
entries of `connectionsRef.current` and send the message over each data
connection whose `open` flag is set; peers with a missing or closed data
connection are skipped.  The function only reads the registry; it returns the
list of (receiver, message) sends it performed. -/
def sendDataToAll (s : OrchState) (m : Msg) : List (String × Msg) :=
  if s.peerOpen then
    s.connections.filterMap (fun e =>
      match e.2.dataConnection with
      | some d => if d.isOpen then some (e.1, m) else none
      | none => none)
  else []

/-- The data connection of registry entry `c` exists and is open. -/
def dataOpen (c : PeerConns) : Bool :=
  match c.dataConnection with
  | some d => d.isOpen
  | none => false

theorem sendDataToAll_mem (s : OrchState) (m : Msg) (hp : s.peerOpen = true)
    (pid : String) :
    (pid, m) ∈ sendDataToAll s m ↔
      ∃ c, (pid, c) ∈ s.connections ∧ dataOpen c = true := by
  simp only [sendDataToAll, hp, if_pos, List.mem_filterMap]
  constructor
  · rintro ⟨⟨k, c⟩, hmem, hres⟩
    refine ⟨c, ?_, ?_⟩
    · cases hd : c.dataConnection with
      | none => simp [hd] at hres
      | some d =>
          simp only [hd] at hres
          by_cases ho : d.isOpen
          · simp only [ho, if_pos] at hres
            obtain ⟨h1, _⟩ := Prod.mk.injEq .. ▸ Option.some.injEq .. ▸ hres
            cases hres
            exact hmem
          · simp [ho] at hres
    · cases hd : c.dataConnection with
      | none => simp [hd] at hres
      | some d =>
          simp only [hd] at hres
          by_cases ho : d.isOpen
          · simp [dataOpen, hd, ho]
          · simp [ho] at hres
  · rintro ⟨c, hmem, hopen⟩
    refine ⟨(pid, c), hmem, ?_⟩
    cases hd : c.dataConnection with
    | none => simp [dataOpen, hd] at hopen
    | some d =>
        simp only [dataOpen, hd] at hopen
        simp [hd, hopen]

/-- JavaScript truthiness of an optional string field (absent or empty is
falsy). -/
def strTruthy : Option String → Bool
  | some u => u ≠ ""
  | none => false

/-- The `username: username || p.username` pattern of the handlers: take the
message's username when truthy, else keep the participant's. -/
def usernameOr (m : Msg) (p : Participant) : String :=
  match m.username with
  | some u => if u ≠ "" then u else p.username
  | none => p.username

/-- Participant-list effect of the `screen-sharing-status` branch of
`dataConn.on("data")` (`useWebRTC.ts` lines 1179-1223): the participant named
by `peerId` has `isScreenSharing`/`streamType` set to `false`/`"camera"` when
`isSharing` is falsy and to `true`/`"screen"` when it is truthy, with the
username refreshed when provided; all other participants are untouched. -/
def applyScreenSharingStatus (ps : List Participant) (m : Msg) : List Participant :=
  if m.isSharing = some true then
    ps.map (fun p =>
      if some p.id = m.peerId then
        { p with isScreenSharing := some true, streamType := some StreamType.screen
                 username := usernameOr m p }
      else p)
  else
    ps.map (fun p =>
      if some p.id = m.peerId then
        { p with isScreenSharing := some false, streamType := some StreamType.camera
                 username := usernameOr m p }
      else p)

/-- Participant-list effect of the `screen-sharing-stream` branch
(`useWebRTC.ts` lines 1226-1248): mark the sender's stream as screen content. -/
def applyScreenSharingStream (ps : List Participant) (m : Msg) : List Participant :=
  ps.map (fun p =>
    if some p.id = m.peerId then
      { p with isScreenSharing := some true, streamType := some StreamType.screen
               username := usernameOr m p }
    else p)

/-- Participant-list effect of the `stream-metadata` branch (`useWebRTC.ts`
lines 1251-1271), guarded by `data.streamType && data.peerId` being truthy:
tag the named participant's stream kind and derive `isScreenSharing` from it. -/
def applyStreamMetadata (ps : List Participant) (m : Msg) : List Participant :=
  match m.streamType, m.peerId with
  | some st, some pid =>
      if pid ≠ "" then
        ps.map (fun p =>
          if p.id = pid then
            { p with streamType := some st
                     isScreenSharing := some (st = StreamType.screen) }
          else p)
      else ps
  | _, _ => ps

/-- Participant-list effect of the `username` branch (`useWebRTC.ts` lines
1805-1814), guarded by `data.username && data.peerId` being truthy: update the
named participant's display name, leaving every other field and every other
participant untouched. -/
def applyUsernameMsg (ps : List Participant) (m : Msg) : List Participant :=
  match m.username, m.peerId with
  | some u, some pid =>
      if u ≠ "" ∧ pid ≠ "" then
        ps.map (fun p => if p.id = pid then { p with username := u } else p)
      else ps
  | _, _ => ps

/-- Dispatch of an inbound data message to the participant-updating branches
formalised above.  The source's branches are independent `if`s on `data.type`
(not mutually exclusive), so the functions are applied in source order; a
message whose type matches none of these four leaves the list unchanged. -/
def applyDataMsg (ps : List Participant) (m : Msg) : List Participant :=
  let ps1 := if m.type = "screen-sharing-status" then applyScreenSharingStatus ps m else ps
  let ps2 := if m.type = "screen-sharing-stream" then applyScreenSharingStream ps1 m else ps1
  let ps3 := if m.type = "stream-metadata" then applyStreamMetadata ps2 m else ps2
  if m.type = "username" then applyUsernameMsg ps3 m else ps3

/-- The participant-record consistency predicate of the spec:
`streamType = screen` exactly when `isScreenSharing = true`. -/
def screenConsistent (p : Participant) : Bool :=
  (p.streamType = some StreamType.screen) = (p.isScreenSharing = some true)

theorem screenConsistent_applyScreenSharingStatus (ps : List Participant) (m : Msg)
    (h : ∀ p ∈ ps, screenConsistent p = true) :
    ∀ p ∈ applyScreenSharingStatus ps m, screenConsistent p = true := by
  intro p hp
  unfold applyScreenSharingStatus at hp
  by_cases hs : m.isSharing = some true
  · simp only [hs, if_pos, List.mem_map] at hp
    obtain ⟨q, hq, rfl⟩ := hp
    by_cases hid : some q.id = m.peerId
    · simp [hid, screenConsistent]
    · simpa [hid] using h q hq
  · simp only [if_neg hs, List.mem_map] at hp
    obtain ⟨q, hq, rfl⟩ := hp
    by_cases hid : some q.id = m.peerId
    · simp [hid, screenConsistent]
    · simpa [hid] using h q hq

theorem screenConsistent_applyScreenSharingStream (ps : List Participant) (m : Msg)
    (h : ∀ p ∈ ps, screenConsistent p = true) :
    ∀ p ∈ applyScreenSharingStream ps m, screenConsistent p = true := by
  intro p hp
  unfold applyScreenSharingStream at hp
  simp only [List.mem_map] at hp
  obtain ⟨q, hq, rfl⟩ := hp
  by_cases hid : some q.id = m.peerId
  · simp [hid, screenConsistent]
  · simpa [hid] using h q hq

theorem screenConsistent_applyStreamMetadata (ps : List Participant) (m : Msg)
    (h : ∀ p ∈ ps, screenConsistent p = true) :
    ∀ p ∈ applyStreamMetadata ps m, screenConsistent p = true := by
  intro p hp
  rcases hst : m.streamType with _ | st <;> rcases hpid : m.peerId with _ | pid <;>
    simp only [applyStreamMetadata, hst, hpid] at hp
  · exact h p hp
  · exact h p hp
  · exact h p hp
  · split at hp
    · simp only [List.mem_map] at hp
      obtain ⟨q, hq, rfl⟩ := hp
      by_cases hid : q.id = pid
      · cases st <;> simp [hid, screenConsistent]
      · simpa [hid] using h q hq
    · exact h p hp

theorem screenConsistent_applyUsernameMsg (ps : List Participant) (m : Msg)
    (h : ∀ p ∈ ps, screenConsistent p = true) :
    ∀ p ∈ applyUsernameMsg ps m, screenConsistent p = true := by
  intro p hp
  rcases hu : m.username with _ | u <;> rcases hpid : m.peerId with _ | pid <;>
    simp only [applyUsernameMsg, hu, hpid] at hp
  · exact h p hp
  · exact h p hp
  · exact h p hp
  · split at hp
    · simp only [List.mem_map] at hp
      obtain ⟨q, hq, rfl⟩ := hp
      by_cases hid : q.id = pid
      · simpa [hid, screenConsistent] using h q hq
      · simpa [hid] using h q hq
    · exact h p hp

theorem screenConsistent_applyDataMsg (ps : List Participant) (m : Msg)
    (h : ∀ p ∈ ps, screenConsistent p = true) :
    ∀ p ∈ applyDataMsg ps m, screenConsistent p = true := by
  unfold applyDataMsg
  have h1 : ∀ p ∈ (if m.type = "screen-sharing-status" then
      applyScreenSharingStatus ps m else ps), screenConsistent p = true := by
    split
    · exact screenConsistent_applyScreenSharingStatus ps m h
    · exact h
  have h2 : ∀ p ∈ (if m.type = "screen-sharing-stream" then
      applyScreenSharingStream (if m.type = "screen-sharing-status" then
        applyScreenSharingStatus ps m else ps) m
      else (if m.type = "screen-sharing-status" then
        applyScreenSharingStatus ps m else ps)), screenConsistent p = true := by
    split
    · exact screenConsistent_applyScreenSharingStream _ m h1
    · exact h1
  have h3 : ∀ p ∈ (if m.type = "stream-metadata" then
      applyStreamMetadata (if m.type = "screen-sharing-stream" then
        applyScreenSharingStream (if m.type = "screen-sharing-status" then
          applyScreenSharingStatus ps m else ps) m
        else (if m.type = "screen-sharing-status" then
          applyScreenSharingStatus ps m else ps)) m
      else (if m.type = "screen-sharing-stream" then
        applyScreenSharingStream (if m.type = "screen-sharing-status" then
          applyScreenSharingStatus ps m else ps) m
        else (if m.type = "screen-sharing-status" then
          applyScreenSharingStatus ps m else ps))), screenConsistent p = true := by
    split
    · exact screenConsistent_applyStreamMetadata _ m h2
    · exact h2
  have h4 : ∀ p ∈ (if m.type = "username" then
      applyUsernameMsg (if m.type = "stream-metadata" then
        applyStreamMetadata (if m.type = "screen-sharing-stream" then
          applyScreenSharingStream (if m.type = "screen-sharing-status" then
            applyScreenSharingStatus ps m else ps) m
          else (if m.type = "screen-sharing-status" then
            applyScreenSharingStatus ps m else ps)) m
        else (if m.type = "screen-sharing-stream" then
          applyScreenSharingStream (if m.type = "screen-sharing-status" then
            applyScreenSharingStatus ps m else ps) m
          else (if m.type = "screen-sharing-status" then
            applyScreenSharingStatus ps m else ps))) m
      else (if m.type = "stream-metadata" then
        applyStreamMetadata (if m.type = "screen-sharing-stream" then
          applyScreenSharingStream (if m.type = "screen-sharing-status" then
            applyScreenSharingStatus ps m else ps) m
          else (if m.type = "screen-sharing-status" then
            applyScreenSharingStatus ps m else ps)) m
        else (if m.type = "screen-sharing-stream" then
          applyScreenSharingStream (if m.type = "screen-sharing-status" then
            applyScreenSharingStatus ps m else ps) m
          else (if m.type = "screen-sharing-status" then
            applyScreenSharingStatus ps m else ps)))),
      screenConsistent p = true := by
    split
    · exact screenConsistent_applyUsernameMsg _ m h3
    · exact h3
  intro p hp
  exact h4 p hp

/-- C4: for every participant record, after the local node processes any
message of type `screen-sharing-status`, `screen-sharing-stream`, or
`stream-metadata`, the record satisfies `streamType = screen` if and only if
`isScreenSharing = true` — stated as the handlers preserving the consistency
invariant over the whole participant list. -/
theorem screen_flag_consistency (ps : List Participant) (m : Msg)
    (_hty : m.type = "screen-sharing-status" ∨ m.type = "screen-sharing-stream" ∨
      m.type = "stream-metadata")
    (h : ∀ p ∈ ps, screenConsistent p = true) :
    ∀ p ∈ applyDataMsg ps m, screenConsistent p = true :=
  screenConsistent_applyDataMsg ps m h

/-- Fixture for the C4 witness: one camera participant, one screen-share
status message flipping it to screen. -/
def c4Participants : List Participant :=
  [{ id := "room-11", username := "guest", stream := 3, isCreator := false
     isScreenSharing := some false, streamType := some StreamType.camera }]

/-- Fixture: the `screen-sharing-status` message of the C4 witness. -/
def c4Msg : Msg :=
  { type := "screen-sharing-status", peerId := some "room-11", isSharing := some true
    streamType := some StreamType.screen, username := some "guest" }

theorem screen_flag_consistency_witness :
    (c4Msg.type = "screen-sharing-status" ∨ c4Msg.type = "screen-sharing-stream" ∨
      c4Msg.type = "stream-metadata")
    ∧ ∀ p ∈ applyDataMsg c4Participants c4Msg, screenConsistent p = true :=
  ⟨Or.inl rfl,
    screen_flag_consistency c4Participants c4Msg (Or.inl rfl) (by decide)⟩

/-- C8: applying a received `username` message carrying `username="Alice"` and
`peerId=X` updates exactly the display name of the participant(s) with id `X`
and alters no other field of any participant: the result is the pointwise map
that rewrites only the `username` field of matching records. -/
theorem username_msg_updates_only_name (ps : List Participant) (X : String)
    (hX : X ≠ "") :
    applyUsernameMsg ps { type := "username", username := some "Alice", peerId := some X }
      = ps.map (fun p => if p.id = X then { p with username := "Alice" } else p) := by
  simp [applyUsernameMsg, hX]

/-- Fixture for the C8 witness: two stored participants. -/
def c8Participants : List Participant :=
  [{ id := "room-x", username := "old", stream := 1, isCreator := false
     isScreenSharing := some false, streamType := some StreamType.camera },
   { id := "room-creator", username := "host", stream := 2, isCreator := true }]

theorem username_msg_updates_only_name_witness :
    applyUsernameMsg c8Participants
        { type := "username", username := some "Alice", peerId := some "room-x" }
      = c8Participants.map
          (fun p => if p.id = "room-x" then { p with username := "Alice" } else p) :=
  username_msg_updates_only_name c8Participants "room-x" (by decide)

/-- C10: `sendDataToAll` delivers the message exactly to the peers whose data
connection exists and is open; peers with a missing or closed data connection
are silently skipped, nothing is queued, every emitted send carries the given
message, and the function never writes the connection registry (it is a pure
reader of the state). -/
theorem sendDataToAll_only_open (s : OrchState) (m : Msg) (hp : s.peerOpen = true) :
    (∀ pid, (pid, m) ∈ sendDataToAll s m ↔
        ∃ c, (pid, c) ∈ s.connections ∧ dataOpen c = true)
    ∧ ∀ e ∈ sendDataToAll s m, e.2 = m := by
  refine ⟨fun pid => sendDataToAll_mem s m hp pid, ?_⟩
  intro e he
  simp only [sendDataToAll, hp, if_pos, List.mem_filterMap] at he
  obtain ⟨⟨k, c⟩, _, hres⟩ := he
  cases hd : c.dataConnection with
  | none => simp [hd] at hres
  | some d =>
      simp only [hd] at hres
      by_cases ho : d.isOpen
      · simp only [ho, if_pos, Option.some.injEq] at hres
        cases hres
        rfl
      · simp [ho] at hres

/-- Fixture for the C10 witness: one open data connection, one closed, one
absent. -/
def c10State : OrchState :=
  { roomId := "r", selfId := "r-creator", isCreator := true, localUsername := "host"
    connections :=
      [("r-1", { dataConnection := some { handle := 1, isOpen := true } }),
       ("r-2", { dataConnection := some { handle := 2, isOpen := false } }),
       ("r-3", { mediaConnection := some { handle := 3 } })] }

/-- Fixture: the message broadcast in the C10 witness. -/
def c10Msg : Msg := { type := "chat-message" }

theorem sendDataToAll_only_open_witness :
    c10State.peerOpen = true
    ∧ (("r-1", c10Msg) ∈ sendDataToAll c10State c10Msg ↔
        ∃ c, ("r-1", c) ∈ c10State.connections ∧ dataOpen c = true) :=
  ⟨rfl, (sendDataToAll_only_open c10State c10Msg rfl).1 "r-1"⟩

/-- Embeds `establishPeerConnection` (`useWebRTC.ts` lines 591-724).  Guard:
no-op when the peer handle is gone, the local stream is missing, or the target
is the local id.  Early return when a media connection to the peer already
exists.  Otherwise a data connection is opened when none is registered (the
source registers it in the registry only later, inside the connection's
`open` handler, so here it appears only as an opened-channel effect), then a
media call is placed and stored in the registry entry, preserving whatever
data connection that entry already held.  The 15-second failure timeout and
the stream/close handlers are asynchronous and modelled separately. -/
def establishPeerConnection (s : OrchState) (peerId : String) : OrchState × Effects :=
  if s.peerOpen = false ∨ s.localStream = none ∨ peerId = s.selfId then (s, {})
  else if ((lookupConn s.connections peerId).bind PeerConns.mediaConnection).isSome then
    (s, {})
  else
    let dataStep : Effects × Nat :=
      if ((lookupConn s.connections peerId).bind PeerConns.dataConnection).isSome then
        ({}, s.nextHandle)
      else ({ dataConnsOpened := [(peerId, s.nextHandle)] }, s.nextHandle + 1)
    let h := dataStep.2
    let merged : PeerConns :=
      { (lookupConn s.connections peerId).getD {} with
          mediaConnection := some { handle := h } }
    ({ s with connections := setConn s.connections peerId merged, nextHandle := h + 1 },
     Effects.app dataStep.1 { mediaCallsPlaced := [(peerId, h)] })

/-- C5: `establishPeerConnection(P)` called twice in a row without an
intervening disconnect is idempotent — the second call changes nothing and
opens no channel, and across both calls exactly one media channel and one
control channel to `P` are created, the media one being the single channel
registered for `P`. -/
theorem establishPeerConnection_noop_of_media (s : OrchState) (P : String)
    (h : ((lookupConn s.connections P).bind PeerConns.mediaConnection).isSome = true) :
    establishPeerConnection s P = (s, ({} : Effects)) := by
  unfold establishPeerConnection
  split
  · rfl
  · simp [h]

theorem establishPeerConnection_idempotent (s : OrchState) (P : String)
    (hp : s.peerOpen = true) (hl : s.localStream.isSome) (hP : P ≠ s.selfId)
    (h0 : lookupConn s.connections P = none) :
    (establishPeerConnection (establishPeerConnection s P).1 P).1
        = (establishPeerConnection s P).1
    ∧ (establishPeerConnection (establishPeerConnection s P).1 P).2 = ({} : Effects)
    ∧ (establishPeerConnection s P).2.mediaCallsPlaced = [(P, s.nextHandle + 1)]
    ∧ (establishPeerConnection s P).2.dataConnsOpened = [(P, s.nextHandle)]
    ∧ (lookupConn (establishPeerConnection s P).1.connections P).bind
        PeerConns.mediaConnection = some { handle := s.nextHandle + 1 } := by
  have hg : ¬(s.peerOpen = false ∨ s.localStream = none ∨ P = s.selfId) := by
    push_neg
    refine ⟨by simp [hp], ?_, hP⟩
    intro hn
    rw [hn] at hl
    simp at hl
  have hr1 : establishPeerConnection s P =
      ({ s with
          connections := setConn s.connections P
            { mediaConnection := some { handle := s.nextHandle + 1 }, dataConnection := none }
          nextHandle := s.nextHandle + 2 },
       { sent := [], mediaCallsPlaced := [(P, s.nextHandle + 1)]
         dataConnsOpened := [(P, s.nextHandle)], closedMedia := [], closedData := [] }) := by
    simp [establishPeerConnection, hg, h0, Effects.app]
  have hlook : lookupConn (establishPeerConnection s P).1.connections P =
      some { mediaConnection := some { handle := s.nextHandle + 1 }, dataConnection := none } := by
    rw [hr1]
    exact lookupConn_setConn_self s.connections P _
  have hsome : ((lookupConn (establishPeerConnection s P).1.connections P).bind
      PeerConns.mediaConnection).isSome = true := by
    rw [hlook]
    rfl
  have hnoop := establishPeerConnection_noop_of_media (establishPeerConnection s P).1 P hsome
  refine ⟨by rw [hnoop], by rw [hnoop], ?_, ?_, ?_⟩
  · rw [hr1]
  · rw [hr1]
  · rw [hlook]
    rfl

/-- Fixture for the C5 witness: empty registry, joiner about to connect to a
fresh peer. -/
def c5State : OrchState :=
  { roomId := "r", selfId := "r-100", isCreator := false, localUsername := "guest"
    localStream := some 0 }

theorem establishPeerConnection_idempotent_witness :
    c5State.peerOpen = true ∧ c5State.localStream.isSome = true
    ∧ (establishPeerConnection (establishPeerConnection c5State "r-7").1 "r-7").1
        = (establishPeerConnection c5State "r-7").1
    ∧ (establishPeerConnection c5State "r-7").2.mediaCallsPlaced
        = [("r-7", c5State.nextHandle + 1)] :=
  ⟨rfl, rfl,
    (establishPeerConnection_idempotent c5State "r-7" rfl rfl (by decide) rfl).1,
    (establishPeerConnection_idempotent c5State "r-7" rfl rfl (by decide) rfl).2.2.1⟩

/-- The `screen-sharing-status` notification broadcast by `startScreenShare`. -/
def screenStatusOnMsg (selfId username : String) : Msg :=
  { type := "screen-sharing-status", isSharing := some true, peerId := some selfId
    streamType := some StreamType.screen, username := some username }

/-- The `screen-share-started` notification broadcast by `startScreenShare`. -/
def screenShareStartedMsg (selfId username : String) : Msg :=
  { type := "screen-share-started", sharingPeerId := some selfId
    streamType := some StreamType.screen, username := some username }

/-- The per-peer `screen-sharing-stream` notification of `startScreenShare`. -/
def screenSharingStreamMsg (selfId : String) : Msg :=
  { type := "screen-sharing-stream", peerId := some selfId
    streamType := some StreamType.screen }

/-- The per-participant loop of `startScreenShare` (`useWebRTC.ts` lines
798-830): for every participant other than self, place a dedicated screen
media call (fresh handle), record it in the local `screenConnections` object,
and send a `screen-sharing-stream` notice over that peer's registered open
data connection.  Returns the built screen registry, the next free handle,
the sends, and the calls placed.  The primary registry `conns` is only read. -/
def screenShareLoop (selfId : String) (conns : Registry PeerConns) :
    List Participant → Registry Nat → Nat →
      Registry Nat × Nat × List (String × Msg) × List (String × Nat)
  | [], acc, h => (acc, h, [], [])
  | p :: rest, acc, h =>
      if p.id = selfId then screenShareLoop selfId conns rest acc h
      else
        let acc' := setConn acc p.id h
        let sentNow :=
          match (lookupConn conns p.id).bind PeerConns.dataConnection with
          | some d => if d.isOpen then [(p.id, screenSharingStreamMsg selfId)] else []
          | none => []
        let r := screenShareLoop selfId conns rest acc' (h + 1)
        (r.1, r.2.1, sentNow ++ r.2.2.1, (p.id, h) :: r.2.2.2)

/-- Embeds `startScreenShare` (`useWebRTC.ts` lines 727-849), success path of
`getDisplayMedia` with the captured screen stream handle `sh`: broadcast the
two start notifications, set the screen-stream state, run the per-participant
screen-call loop (which builds a fresh `screenConnections` object stored on
the peer, separate from `connectionsRef`), and mark participants as
`reconnecting` when transitions are enabled.  The 1-second transition timers
are asynchronous and omitted.  The primary connection registry is never
written and no channel is closed. -/
def startScreenShare (s : OrchState) (sh : Nat) : OrchState × Effects :=
  if s.peerOpen = false then (s, {})
  else
    let sent1 := sendDataToAll s (screenStatusOnMsg s.selfId s.localUsername)
    let sent2 := sendDataToAll s (screenShareStartedMsg s.selfId s.localUsername)
    let s1 := { s with screenStream := some sh, isScreenSharing := true }
    let r := screenShareLoop s1.selfId s1.connections s1.participants [] s1.nextHandle
    let s2 := { s1 with screenConnections := r.1, nextHandle := r.2.1 }
    let s3 :=
      if s2.transitionsEnabled then
        { s2 with participants :=
            s2.participants.map (fun p =>
              { p with transitionState := some TransitionState.reconnecting }) }
      else s2
    (s3, { sent := sent1 ++ sent2 ++ r.2.2.1, mediaCallsPlaced := r.2.2.2 })

theorem screenShareLoop_isSome_mono (selfId : String) (conns : Registry PeerConns) :
    ∀ (ps : List Participant) (acc : Registry Nat) (h : Nat) (key : String),
      (lookupConn acc key).isSome = true →
      (lookupConn (screenShareLoop selfId conns ps acc h).1 key).isSome = true := by
  intro ps
  induction ps with
  | nil => intro acc h key hk; simpa [screenShareLoop] using hk
  | cons p rest ih =>
      intro acc h key hk
      by_cases hid : p.id = selfId
      · simpa [screenShareLoop, hid] using ih acc h key hk
      · simp only [screenShareLoop, hid, if_neg, ite_false]
        exact ih _ _ key (lookupConn_setConn_isSome acc p.id key h hk)

theorem screenShareLoop_mem_isSome (selfId : String) (conns : Registry PeerConns) :
    ∀ (ps : List Participant) (acc : Registry Nat) (h : Nat) (p : Participant),
      p ∈ ps → p.id ≠ selfId →
      (lookupConn (screenShareLoop selfId conns ps acc h).1 p.id).isSome = true := by
  intro ps
  induction ps with
  | nil => intro acc h p hp; exact absurd hp (List.not_mem_nil p)
  | cons q rest ih =>
      intro acc h p hp hne
      rcases List.mem_cons.mp hp with hEq | hmem
      · subst hEq
        simp only [screenShareLoop, hne, if_neg, ite_false]
        exact screenShareLoop_isSome_mono selfId conns rest _ _ p.id
          (by simp [lookupConn_setConn_self])
      · by_cases hid : q.id = selfId
        · simpa [screenShareLoop, hid] using ih acc h p hmem hne
        · simp only [screenShareLoop, hid, if_neg, ite_false]
          exact ih _ _ p hmem hne

/-- C1: while N primary (camera) media channels are open, `startScreenShare`
never closes or replaces any registry entry — the whole connection registry,
and so every registered media-channel object, is unchanged and no channel is
closed — while a separate screen channel is recorded for every participant
other than self under the distinct `screenConnections` key space. -/
theorem startScreenShare_preserves_primary (s : OrchState) (sh : Nat)
    (hp : s.peerOpen = true) :
    (startScreenShare s sh).1.connections = s.connections
    ∧ (startScreenShare s sh).2.closedMedia = []
    ∧ (startScreenShare s sh).2.closedData = []
    ∧ ∀ p ∈ s.participants, p.id ≠ s.selfId →
        (lookupConn (startScreenShare s sh).1.screenConnections p.id).isSome = true := by
  have hnp : ¬s.peerOpen = false := by simp [hp]
  refine ⟨?_, ?_, ?_, ?_⟩
  · by_cases ht : s.transitionsEnabled <;> simp [startScreenShare, hnp, ht]
  · simp [startScreenShare, hnp]
  · simp [startScreenShare, hnp]
  · intro p hmem hne
    have hsc : (startScreenShare s sh).1.screenConnections =
        (screenShareLoop s.selfId s.connections s.participants [] s.nextHandle).1 := by
      by_cases ht : s.transitionsEnabled <;> simp [startScreenShare, hnp, ht]
    rw [hsc]
    exact screenShareLoop_mem_isSome s.selfId s.connections s.participants [] s.nextHandle
      p hmem hne

/-- Fixture for the C1 witness: two open primary connections and matching
participants. -/
def c1State : OrchState :=
  { roomId := "r", selfId := "r-creator", isCreator := true, localUsername := "host"
    localStream := some 0
    connections :=
      [("r-1", { mediaConnection := some { handle := 1 }
                 dataConnection := some { handle := 2, isOpen := true } }),
       ("r-2", { mediaConnection := some { handle := 3 }
                 dataConnection := some { handle := 4, isOpen := true } })]
    participants :=
      [{ id := "r-1", username := "a", stream := 5, isCreator := false },
       { id := "r-2", username := "b", stream := 6, isCreator := false }]
    nextHandle := 7 }

theorem startScreenShare_preserves_primary_witness :
    c1State.peerOpen = true
    ∧ (startScreenShare c1State 9).1.connections = c1State.connections
    ∧ (startScreenShare c1State 9).2.closedMedia = [] :=
  ⟨rfl, (startScreenShare_preserves_primary c1State 9 rfl).1,
    (startScreenShare_preserves_primary c1State 9 rfl).2.1⟩

/-- Boolean substring search on character lists (the list-level engine of
JavaScript's `String.prototype.includes`). -/
def listIsInfixOf (pat : List Char) : List Char → Bool
  | [] => pat.isEmpty
  | c :: rest => pat.isPrefixOf (c :: rest) || listIsInfixOf pat rest

theorem listIsInfixOf_eq_true_iff (pat : List Char) :
    ∀ l : List Char, listIsInfixOf pat l = true ↔ pat <:+: l := by
  intro l
  induction l with
  | nil =>
      cases pat <;> simp [listIsInfixOf, List.isEmpty]
  | cons c rest ih =>
      simp [listIsInfixOf, List.infix_cons_iff, ih, List.isPrefixOf_iff_prefix,
        Bool.or_eq_true]

/-- JavaScript `s.includes(pat)`: substring containment. -/
def strIncludes (s pat : String) : Bool := listIsInfixOf pat.toList s.toList

/-- JavaScript `s.endsWith(pat)`: the suffix test named by the spec's
`-creator` suffix convention. -/
def strEndsWith (s pat : String) : Bool := pat.toList.isSuffixOf s.toList

/-- Creator detection as the source performs it everywhere
(`call.peer.includes("-creator")`, `peerId.includes("-creator")`, ...):
substring containment of `-creator`. -/
def peerIdIsCreator (id : String) : Bool := strIncludes id ("-creator")

/-- The peer id minted for the room creator (`useWebRTC.ts` line 207). -/
def makeCreatorId (roomId : String) : String := roomId ++ "-creator"

/-- The peer id minted for a joiner (`useWebRTC.ts` line 207), from the room
id and the join-time `Date.now()` value. -/
def makeJoinerId (roomId : String) (ts : Nat) : String :=
  roomId ++ "-" ++ toString ts

/-- The `request-peer-list` message. -/
def requestPeerListMsg : Msg := { type := "request-peer-list" }

/-- Handle of the media channel a `.close()` call would close, if present. -/
def closeMediaOf (c : PeerConns) : List Nat :=
  match c.mediaConnection with
  | some mc => [mc.handle]
  | none => []

/-- Handle of the data channel a `.close()` call would close, if present. -/
def closeDataOf (c : PeerConns) : List Nat :=
  match c.dataConnection with
  | some d => [d.handle]
  | none => []

/-- The non-creator star-switch teardown of `setTopology` (`useWebRTC.ts`
lines 2203-2217): iterate over a snapshot of the registry entries; for each
key that does not contain `-creator`, close both channels, delete the live
registry entry, and apply the source's participant update
`prev.filter((p) => p.id === peerId)` literally — note this keeps exactly the
participant carrying the id being torn down and drops all others. -/
def starTeardownLoop : OrchState → List (String × PeerConns) → OrchState × Effects
  | s, [] => (s, {})
  | s, (pid, c) :: rest =>
      if strIncludes pid ("-creator") then starTeardownLoop s rest
      else
        let s' := { s with connections := removeConn s.connections pid
                           participants := s.participants.filter (fun p => p.id == pid) }
        let r := starTeardownLoop s' rest
        (r.1, Effects.app { closedMedia := closeMediaOf c, closedData := closeDataOf c } r.2)

/-- Embeds `setTopology` (`useWebRTC.ts` lines 2199-2231): record the new
mode; on star for a non-creator, run the teardown loop over the entry
snapshot; on mesh for a non-creator with a live peer handle, send
`request-peer-list` to the creator when that data connection is open. -/
def setTopology (s : OrchState) (t : Topology) : OrchState × Effects :=
  let s0 := { s with networkTopology := t }
  if t = Topology.star ∧ s0.isCreator = false then
    starTeardownLoop s0 s0.connections
  else if t = Topology.mesh ∧ s0.isCreator = false ∧ s0.peerOpen = true then
    let creatorId := s0.roomId ++ "-creator"
    match (lookupConn s0.connections creatorId).bind PeerConns.dataConnection with
    | some d =>
        if d.isOpen then (s0, { sent := [(creatorId, requestPeerListMsg)] })
        else (s0, {})
    | none => (s0, {})
  else (s0, {})

/-- Fixture for C2: a non-creator node in room `room` holding a connection to
the creator and to fellow non-creator `room-42`, with both Participants. -/
def c2State : OrchState :=
  { roomId := "room", selfId := "room-5", isCreator := false, localUsername := "guest"
    localStream := some 0
    connections :=
      [("room-creator", { mediaConnection := some { handle := 1 }
                          dataConnection := some { handle := 2, isOpen := true } }),
       ("room-42", { mediaConnection := some { handle := 3 }
                     dataConnection := some { handle := 4, isOpen := true } })]
    participants :=
      [{ id := "room-creator", username := "host", stream := 5, isCreator := true },
       { id := "room-42", username := "mate", stream := 6, isCreator := false }] }

/-- C2 (code bug, evaluated at the failing input): switching mesh→star on a
non-creator does close both channels of `room-42` and delete its registry
entry, but the source's participant update `prev.filter((p) => p.id ===
peerId)` keeps exactly the Participant it was supposed to remove (and drops
the creator's), so after the switch a Participant for the non-creator id
`room-42` still exists, contradicting the claim. -/
theorem setTopology_star_participant_bug :
    lookupConn (setTopology c2State Topology.star).1.connections "room-42" = none
    ∧ (setTopology c2State Topology.star).2.closedMedia = [3]
    ∧ (setTopology c2State Topology.star).2.closedData = [4]
    ∧ (setTopology c2State Topology.star).1.participants.map Participant.id
        = ["room-42"] := by decide

/-- The `peer-disconnect` control message naming `pid`. -/
def peerDisconnectMsg (pid : String) : Msg :=
  { type := "peer-disconnect", peerId := some pid }

/-- Embeds `handlePeerDisconnection` (`useWebRTC.ts` lines 2156-2176): with
transitions enabled, mark the participant `disconnecting` and leave its
removal to the 800 ms timer (returned as a pending removal); otherwise remove
it immediately.  In both cases the registry entry is deleted.  No `.close()`
is invoked on either channel, so the effect record carries no closures. -/
def handlePeerDisconnection (s : OrchState) (pid : String) :
    OrchState × List String × Effects :=
  if s.transitionsEnabled then
    ({ s with
        participants := s.participants.map (fun p =>
          if p.id = pid then { p with transitionState := some TransitionState.disconnecting }
          else p)
        connections := removeConn s.connections pid }, [pid], {})
  else
    ({ s with
        participants := s.participants.filter (fun p => p.id != pid)
        connections := removeConn s.connections pid }, [], {})

/-- The delayed `setParticipants` filter run by the 800 ms transition timer of
`handlePeerDisconnection`. -/
def applyPendingRemoval (s : OrchState) (pid : String) : OrchState :=
  { s with participants := s.participants.filter (fun p => p.id != pid) }

theorem not_mem_map_id_filter_ne (ps : List Participant) (pid : String) :
    pid ∉ (ps.filter (fun p => p.id != pid)).map Participant.id := by
  intro h
  rcases List.mem_map.mp h with ⟨p, hp, hid⟩
  rcases List.mem_filter.mp hp with ⟨_, hne⟩
  rw [hid] at hne
  simp at hne

/-- The `peer-disconnect` branch of `dataConn.on("data")` (`useWebRTC.ts`
lines 1305-1307), guarded by the message type and a truthy `peerId`. -/
def processPeerDisconnect (s : OrchState) (m : Msg) : OrchState × List String × Effects :=
  match m.peerId with
  | some pid =>
      if m.type = "peer-disconnect" ∧ pid ≠ "" then handlePeerDisconnection s pid
      else (s, [], {})
  | none => (s, [], {})

/-- Fixture for the C7 counterexample: one peer `q` with two live channels. -/
def c7State : OrchState :=
  { roomId := "r", selfId := "r-creator", isCreator := true, localUsername := "h"
    transitionsEnabled := false
    connections :=
      [("q", { mediaConnection := some { handle := 1 }
               dataConnection := some { handle := 2, isOpen := true } })]
    participants := [{ id := "q", username := "u", stream := 0, isCreator := false }] }

/-- C7 counterexample: processing `peer-disconnect` naming `q` removes the
participant and deletes the registry entry, but the claim's "both its
channels are closed" is false — the handler closes nothing (empty effect
record) even though `q` held an open media channel and an open data channel. -/
theorem peer_disconnect_no_close_counterexample :
    lookupConn c7State.connections "q"
      = some { mediaConnection := some { handle := 1 }
               dataConnection := some { handle := 2, isOpen := true } }
    ∧ (processPeerDisconnect c7State (peerDisconnectMsg "q")).2.2 = ({} : Effects)
    ∧ lookupConn (processPeerDisconnect c7State (peerDisconnectMsg "q")).1.connections "q"
        = none
    ∧ (processPeerDisconnect c7State (peerDisconnectMsg "q")).1.participants = [] := by
  decide

/-- C7 (amended): processing a `peer-disconnect` message naming `P` removes
`P`'s Participant — immediately when transitions are disabled, otherwise
after the transition delay via the returned pending removal — and deletes the
registry entry; the handler closes neither of the connection's channels (the
channel objects are merely dropped). -/
theorem peer_disconnect_teardown (s : OrchState) (pid : String) (hpid : pid ≠ "") :
    lookupConn (processPeerDisconnect s (peerDisconnectMsg pid)).1.connections pid = none
    ∧ (processPeerDisconnect s (peerDisconnectMsg pid)).2.2 = ({} : Effects)
    ∧ (s.transitionsEnabled = true →
        (processPeerDisconnect s (peerDisconnectMsg pid)).2.1 = [pid]
        ∧ pid ∉ (applyPendingRemoval (processPeerDisconnect s (peerDisconnectMsg pid)).1
            pid).participants.map Participant.id)
    ∧ (s.transitionsEnabled = false →
        pid ∉ (processPeerDisconnect s (peerDisconnectMsg pid)).1.participants.map
          Participant.id) := by
  have hguard : processPeerDisconnect s (peerDisconnectMsg pid) = handlePeerDisconnection s pid := by
    simp [processPeerDisconnect, peerDisconnectMsg, hpid]
  rw [hguard]
  by_cases ht : s.transitionsEnabled
  · refine ⟨?_, ?_, ?_, ?_⟩
    · simp [handlePeerDisconnection, ht, lookupConn_removeConn_self]
    · simp [handlePeerDisconnection, ht]
    · intro _
      refine ⟨by simp [handlePeerDisconnection, ht], ?_⟩
      simp only [handlePeerDisconnection, ht, if_pos, applyPendingRemoval]
      exact not_mem_map_id_filter_ne _ pid
    · intro hf
      rw [ht] at hf
      exact absurd hf (by simp)
  · refine ⟨?_, ?_, ?_, ?_⟩
    · simp [handlePeerDisconnection, ht, lookupConn_removeConn_self]
    · simp [handlePeerDisconnection, ht]
    · intro htt
      exact absurd htt (by simpa using ht)
    · intro _
      simp only [handlePeerDisconnection, ht, if_neg, ite_false]
      exact not_mem_map_id_filter_ne _ pid

/-- Fixture for the C7 witness: transitions enabled, one peer `w`. -/
def c7WitnessState : OrchState :=
  { roomId := "r", selfId := "r-creator", isCreator := true, localUsername := "h"
    transitionsEnabled := true
    connections :=
      [("w", { mediaConnection := some { handle := 1 }
               dataConnection := some { handle := 2, isOpen := true } })]
    participants := [{ id := "w", username := "u", stream := 0, isCreator := false }] }

theorem peer_disconnect_teardown_witness :
    ("w" : String) ≠ ""
    ∧ lookupConn (processPeerDisconnect c7WitnessState
        (peerDisconnectMsg "w")).1.connections "w" = none :=
  ⟨by decide, (peer_disconnect_teardown c7WitnessState "w" (by decide)).1⟩

/-- C9 counterexample: the flag is not the suffix test the claim states.  For
the room id `demo-creator`, the joiner id `demo-creator-123` is flagged as
creator by the source's substring test although it does not carry the
`-creator` suffix (the actual creator id would be `demo-creator-creator`), so
the id shape does not unambiguously mark the creator for such room ids. -/
theorem creator_flag_counterexample :
    peerIdIsCreator (makeJoinerId ("demo-creator") 123) = true
    ∧ strEndsWith (makeJoinerId ("demo-creator") 123) ("-creator") = false
    ∧ makeJoinerId ("demo-creator") 123 ≠ makeCreatorId ("demo-creator") := by
  decide

/-- C9 (amended): `isCreator` is derived from the id by substring containment
of `-creator` (JavaScript `includes`), not by the suffix convention: every
creator id `roomId ++ "-creator"` is flagged, but whenever the room id itself
contains `-creator`, a joiner id of that room is flagged as creator too, so
the marking is ambiguous for such room ids. -/
theorem creator_flag_is_substring_test (roomId : String) (ts : Nat)
    (hr : strIncludes roomId ("-creator") = true) :
    peerIdIsCreator (makeCreatorId roomId) = true
    ∧ peerIdIsCreator (makeJoinerId roomId ts) = true := by
  constructor
  · unfold peerIdIsCreator makeCreatorId strIncludes
    rw [listIsInfixOf_eq_true_iff]
    have : (roomId ++ "-creator").toList = roomId.toList ++ ("-creator").toList := by
      simp [String.toList]
    rw [this]
    exact (List.suffix_append roomId.toList ("-creator").toList).isInfix
  · unfold peerIdIsCreator makeJoinerId strIncludes
    rw [listIsInfixOf_eq_true_iff]
    unfold strIncludes at hr
    rw [listIsInfixOf_eq_true_iff] at hr
    have : (roomId ++ "-" ++ toString ts).toList
        = roomId.toList ++ (("-" ++ toString ts).toList) := by
      simp [String.toList]
    rw [this]
    exact hr.trans (List.prefix_append roomId.toList _).isInfix

theorem creator_flag_is_substring_test_witness :
    strIncludes ("demo-creator") ("-creator") = true
    ∧ peerIdIsCreator (makeCreatorId ("demo-creator")) = true
    ∧ peerIdIsCreator (makeJoinerId ("demo-creator") 7) = true :=
  ⟨by decide,
    (creator_flag_is_substring_test ("demo-creator") 7 (by decide)).1,
    (creator_flag_is_substring_test ("demo-creator") 7 (by decide)).2⟩

/-- Error values written to the hook's single error slot by the
`connectToCreator` retry logic: `retrying n` stands for "Room host not found.
Retrying connection (n/5)..." and `hostUnreachable` for "Could not connect to
room host. Either the room doesn't exist or the host is offline.". -/
inductive JoinError where
  | retrying (n : Nat)
  | hostUnreachable
deriving Repr, DecidableEq

/-- The retry cap `maxRetries = 5` of `connectToCreator` (`useWebRTC.ts`
line 1903). -/
def maxRetries : Nat := 5

/-- State of the `connectToCreator` retry logic (`useWebRTC.ts` lines
1893-2062) after its synchronous part ran: the first connection attempt has
been made (one failure pending if the creator never answers) and the
3-second retry interval is armed. -/
structure JoinState where
  retryCount : Nat := 0
  connected : Bool := false
  intervalActive : Bool := true
  pendingFailures : Nat := 1
  attemptsMade : Nat := 1
  error : Option JoinError := none
deriving Repr, DecidableEq

/-- Scheduler events of the join loop: one firing of the 3-second interval,
or the arrival of the error event of one earlier attempt. -/
inductive JoinEvent where
  | tick
  | attemptFailed
deriving Repr, DecidableEq

/-- One step of the join retry machine.  `tick` embeds the `setInterval`
callback (`useWebRTC.ts` lines 2046-2061): while `retryCount < maxRetries`
and not connected it launches another attempt, otherwise it clears the
interval.  `attemptFailed` embeds the data connection's error handler
(lines 2005-2034): below the cap it increments `retryCount` and surfaces the
retrying error; at the cap it surfaces the terminal host-unreachable error
and clears the interval. -/
def joinStep (s : JoinState) (e : JoinEvent) : JoinState :=
  match e with
  | JoinEvent.tick =>
      if s.intervalActive = false then s
      else if s.retryCount < maxRetries then
        if s.connected = false then
          { s with attemptsMade := s.attemptsMade + 1
                   pendingFailures := s.pendingFailures + 1 }
        else { s with intervalActive := false }
      else { s with intervalActive := false }
  | JoinEvent.attemptFailed =>
      if s.pendingFailures = 0 then s
      else
        let s' := { s with pendingFailures := s.pendingFailures - 1 }
        if s'.retryCount < maxRetries then
          { s' with retryCount := s'.retryCount + 1
                    error := some (JoinError.retrying (s'.retryCount + 1)) }
        else { s' with error := some JoinError.hostUnreachable, intervalActive := false }

/-- Run the join machine over a scheduler trace. -/
def runJoin (s : JoinState) : List JoinEvent → JoinState :=
  List.foldl joinStep s

/-- The prompt-failure schedule of a join to a creator id that never answers:
each attempt's error event arrives before the next 3-second tick. -/
def promptFailureSchedule : List JoinEvent :=
  [JoinEvent.attemptFailed, JoinEvent.tick,
   JoinEvent.attemptFailed, JoinEvent.tick,
   JoinEvent.attemptFailed, JoinEvent.tick,
   JoinEvent.attemptFailed, JoinEvent.tick,
   JoinEvent.attemptFailed, JoinEvent.tick,
   JoinEvent.tick]

/-- C6 (code bug, evaluated at the failing schedule): when every attempt's
failure arrives before the following tick — the ordinary timing for a
non-existent creator id — the loop makes 5 attempts in total (the initial one
plus only 4 interval retries), leaves the error slot at the non-terminal
"Retrying connection (5/5)" message, and deactivates the interval with the
machine stuck: the terminal host-unreachable error is never surfaced, because
the interval stops launching attempts as soon as `retryCount` reaches the
cap, while the terminal branch only runs for a failure arriving when
`retryCount` is already at the cap. -/
theorem connect_to_creator_no_terminal_error :
    (runJoin {} promptFailureSchedule).attemptsMade = 5
    ∧ (runJoin {} promptFailureSchedule).error = some (JoinError.retrying 5)
    ∧ (runJoin {} promptFailureSchedule).error ≠ some JoinError.hostUnreachable
    ∧ (runJoin {} promptFailureSchedule).intervalActive = false
    ∧ joinStep (runJoin {} promptFailureSchedule) JoinEvent.tick
        = runJoin {} promptFailureSchedule
    ∧ joinStep (runJoin {} promptFailureSchedule) JoinEvent.attemptFailed
        = runJoin {} promptFailureSchedule := by
  decide

/-- The `screen-sharing-status` stop notification of `stopScreenShare`. -/
def screenStatusOffMsg (selfId : String) : Msg :=
  { type := "screen-sharing-status", isSharing := some false, peerId := some selfId }

/-- The `reconnect-after-screen-share` repair message of `stopScreenShare`. -/
def reconnectAfterScreenShareMsg (selfId : String) : Msg :=
  { type := "reconnect-after-screen-share", peerId := some selfId }

/-- The `camera-stream-restored` broadcast of `stopScreenShare`. -/
def cameraRestoredMsg (selfId : String) : Msg :=
  { type := "camera-stream-restored", peerId := some selfId }

/-- The media channel registered for `pid`, if any. -/
def mediaView (l : Registry PeerConns) (pid : String) : Option MediaConn :=
  (lookupConn l pid).bind PeerConns.mediaConnection

/-- The data channel registered for `pid`, if any. -/
def dataConnView (l : Registry PeerConns) (pid : String) : Option DataConn :=
  (lookupConn l pid).bind PeerConns.dataConnection

/-- Whether `pid`'s registered data channel exists and is open. -/
def dataOpenAt (l : Registry PeerConns) (pid : String) : Bool :=
  match dataConnView l pid with
  | some d => d.isOpen
  | none => false

/-- The id-collection loop of `establishAllCameraConnections` (`useWebRTC.ts`
lines 892-899): start from the participant ids and push every registry key
not already collected and different from self. -/
def addMissingKeys (selfId : String) : List String → List String → List String
  | acc, [] => acc
  | acc, k :: rest =>
      if !acc.contains k && k != selfId then addMissingKeys selfId (acc ++ [k]) rest
      else addMissingKeys selfId acc rest

/-- Every peer id known to `establishAllCameraConnections`. -/
def knownPeerIds (s : OrchState) : List String :=
  addMissingKeys s.selfId (s.participants.map Participant.id) (s.connections.map Prod.fst)

/-- One iteration of the repair loop of `establishAllCameraConnections`
(`useWebRTC.ts` lines 902-933): skip self; when no media connection is
registered for the peer, force a fresh `establishPeerConnection`; otherwise,
when that peer's data connection is open, send `reconnect-after-screen-share`;
a peer with a media connection but no open data connection is left alone. -/
def repairStep (s : OrchState) (pid : String) : OrchState × Effects :=
  if pid = s.selfId then (s, {})
  else if (mediaView s.connections pid).isNone then establishPeerConnection s pid
  else
    match dataConnView s.connections pid with
    | some d =>
        if d.isOpen then (s, { sent := [(pid, reconnectAfterScreenShareMsg s.selfId)] })
        else (s, {})
    | none => (s, {})

/-- The sequential repair loop over the known peer ids. -/
def repairLoop : OrchState → List String → OrchState × Effects
  | s, [] => (s, {})
  | s, pid :: rest =>
      let r1 := repairStep s pid
      let r2 := repairLoop r1.1 rest
      (r2.1, Effects.app r1.2 r2.2)

/-- The synchronous state update of `stopScreenShare` (`useWebRTC.ts` lines
868-882 and 946-953): drop the screen stream and the screen registry, and
mark the other participants `reconnecting` when transitions are enabled. -/
def stopScreenState (s : OrchState) : OrchState :=
  if s.transitionsEnabled then
    { s with screenStream := none, isScreenSharing := false, screenConnections := []
             participants :=
               s.participants.map (fun p =>
                 if p.id != s.selfId then
                   { p with transitionState := some TransitionState.reconnecting }
                 else p) }
  else { s with screenStream := none, isScreenSharing := false, screenConnections := [] }

/-- Embeds `stopScreenShare` (`useWebRTC.ts` lines 852-954) together with the
body of its deferred `establishAllCameraConnections` (the 300 ms timer fires
on the same single actor): guard on a live peer handle and an active screen
stream; broadcast the stop notification; close exactly the screen channels;
apply the synchronous state update; then — only if the local camera stream
exists — run the repair loop over every known peer id and finally broadcast
`camera-stream-restored`. -/
def stopScreenShare (s : OrchState) : OrchState × Effects :=
  if s.peerOpen = false ∨ s.screenStream = none then (s, {})
  else
    let sent1 := sendDataToAll s (screenStatusOffMsg s.selfId)
    let closed := s.screenConnections.map Prod.snd
    let s3 := stopScreenState s
    if s3.localStream.isNone then
      (s3, { sent := sent1, closedMedia := closed })
    else
      let r := repairLoop s3 (knownPeerIds s3)
      let sent2 := sendDataToAll r.1 (cameraRestoredMsg r.1.selfId)
      (r.1, Effects.app { sent := sent1, closedMedia := closed }
        (Effects.app r.2 { sent := sent2 }))

theorem lookupConn_mem {α : Type} (l : Registry α) (k : String) (v : α)
    (h : lookupConn l k = some v) : (k, v) ∈ l := by
  induction l with
  | nil => simp [lookupConn] at h
  | cons hd tl ih =>
      obtain ⟨k₀, w⟩ := hd
      by_cases h0 : k₀ = k
      · rw [lookupConn, if_pos h0] at h
        obtain rfl := Option.some.inj h
        subst h0
        exact List.mem_cons_self _ _
      · rw [lookupConn, if_neg h0] at h
        exact List.mem_cons_of_mem _ (ih h)

theorem sendDataToAll_mem_of_openAt (s : OrchState) (m : Msg) (pid : String)
    (hp : s.peerOpen = true) (hd : dataOpenAt s.connections pid = true) :
    (pid, m) ∈ sendDataToAll s m := by
  rw [sendDataToAll_mem s m hp pid]
  unfold dataOpenAt dataConnView at hd
  cases hl : lookupConn s.connections pid with
  | none => rw [hl] at hd; simp at hd
  | some c =>
      rw [hl] at hd
      exact ⟨c, lookupConn_mem _ _ _ hl, by simpa [dataOpen] using hd⟩

theorem establishPeerConnection_core (s : OrchState) (pid : String) :
    (establishPeerConnection s pid).1.peerOpen = s.peerOpen
    ∧ (establishPeerConnection s pid).1.localStream = s.localStream
    ∧ (establishPeerConnection s pid).1.selfId = s.selfId := by
  unfold establishPeerConnection
  split
  · exact ⟨rfl, rfl, rfl⟩
  · split
    · exact ⟨rfl, rfl, rfl⟩
    · exact ⟨rfl, rfl, rfl⟩

theorem establishPeerConnection_lookup_other (s : OrchState) (pid k : String)
    (hk : k ≠ pid) :
    lookupConn (establishPeerConnection s pid).1.connections k
      = lookupConn s.connections k := by
  unfold establishPeerConnection
  split
  · rfl
  · split
    · rfl
    · exact lookupConn_setConn_ne s.connections pid k _ hk

theorem establishPeerConnection_dataConnView (s : OrchState) (pid k : String) :
    dataConnView (establishPeerConnection s pid).1.connections k
      = dataConnView s.connections k := by
  by_cases hk : k = pid
  · subst hk
    unfold establishPeerConnection
    split
    · rfl
    · split
      · rfl
      · unfold dataConnView
        rw [lookupConn_setConn_self]
        cases hl : lookupConn s.connections k <;> simp [hl]
  · unfold dataConnView
    rw [establishPeerConnection_lookup_other s pid k hk]

theorem establishPeerConnection_closed (s : OrchState) (pid : String) :
    (establishPeerConnection s pid).2.closedMedia = []
    ∧ (establishPeerConnection s pid).2.closedData = [] := by
  unfold establishPeerConnection
  split
  · exact ⟨rfl, rfl⟩
  · split
    · exact ⟨rfl, rfl⟩
    · constructor
      · show (Effects.app _ _).closedMedia = []
        unfold Effects.app
        split <;> rfl
      · show (Effects.app _ _).closedData = []
        unfold Effects.app
        split <;> rfl

theorem establishPeerConnection_call_placed (s : OrchState) (pid : String)
    (hp : s.peerOpen = true) (hl : s.localStream.isSome = true)
    (hself : pid ≠ s.selfId) (hm : mediaView s.connections pid = none) :
    ∃ h, (establishPeerConnection s pid).2.mediaCallsPlaced = [(pid, h)] := by
  have hg : ¬(s.peerOpen = false ∨ s.localStream = none ∨ pid = s.selfId) := by
    push_neg
    refine ⟨by simp [hp], ?_, hself⟩
    intro hn
    rw [hn] at hl
    simp at hl
  unfold mediaView at hm
  by_cases hd : ((lookupConn s.connections pid).bind PeerConns.dataConnection).isSome = true
  · refine ⟨s.nextHandle, ?_⟩
    simp [establishPeerConnection, hg, hm, hd, Effects.app]
  · refine ⟨s.nextHandle + 1, ?_⟩
    simp [establishPeerConnection, hg, hm, hd, Effects.app]

theorem repairStep_core (s : OrchState) (pid : String) :
    (repairStep s pid).1.peerOpen = s.peerOpen
    ∧ (repairStep s pid).1.localStream = s.localStream
    ∧ (repairStep s pid).1.selfId = s.selfId := by
  unfold repairStep
  split
  · exact ⟨rfl, rfl, rfl⟩
  · split
    · exact establishPeerConnection_core s pid
    · split
      · split
        · exact ⟨rfl, rfl, rfl⟩
        · exact ⟨rfl, rfl, rfl⟩
      · exact ⟨rfl, rfl, rfl⟩

theorem repairStep_lookup_other (s : OrchState) (pid k : String) (hk : k ≠ pid) :
    lookupConn (repairStep s pid).1.connections k = lookupConn s.connections k := by
  unfold repairStep
  split
  · rfl
  · split
    · exact establishPeerConnection_lookup_other s pid k hk
    · split
      · split
        · rfl
        · rfl
      · rfl

theorem repairStep_dataConnView (s : OrchState) (pid k : String) :
    dataConnView (repairStep s pid).1.connections k = dataConnView s.connections k := by
  unfold repairStep
  split
  · rfl
  · split
    · exact establishPeerConnection_dataConnView s pid k
    · split
      · split
        · rfl
        · rfl
      · rfl

theorem repairStep_closed (s : OrchState) (pid : String) :
    (repairStep s pid).2.closedMedia = [] ∧ (repairStep s pid).2.closedData = [] := by
  unfold repairStep
  split
  · exact ⟨rfl, rfl⟩
  · split
    · exact establishPeerConnection_closed s pid
    · split
      · split
        · exact ⟨rfl, rfl⟩
        · exact ⟨rfl, rfl⟩
      · exact ⟨rfl, rfl⟩

theorem repairStep_call (s : OrchState) (pid : String)
    (hp : s.peerOpen = true) (hl : s.localStream.isSome = true)
    (hself : pid ≠ s.selfId) (hm : mediaView s.connections pid = none) :
    ∃ h, (repairStep s pid).2.mediaCallsPlaced = [(pid, h)] := by
  unfold repairStep
  rw [if_neg hself, if_pos (by simp [hm])]
  exact establishPeerConnection_call_placed s pid hp hl hself hm

theorem repairStep_reconnect (s : OrchState) (pid : String)
    (hself : pid ≠ s.selfId) (hm : ¬mediaView s.connections pid = none)
    (hd : dataOpenAt s.connections pid = true) :
    (repairStep s pid).2.sent = [(pid, reconnectAfterScreenShareMsg s.selfId)] := by
  unfold repairStep
  rw [if_neg hself, if_neg (by simpa [Option.isNone_iff_eq_none] using hm)]
  unfold dataOpenAt at hd
  cases hdc : dataConnView s.connections pid with
  | none => rw [hdc] at hd; simp at hd
  | some d =>
      rw [hdc] at hd
      simp only [hdc]
      rw [if_pos hd]

theorem repairLoop_core : ∀ (ids : List String) (s : OrchState),
    (repairLoop s ids).1.peerOpen = s.peerOpen
    ∧ (repairLoop s ids).1.localStream = s.localStream
    ∧ (repairLoop s ids).1.selfId = s.selfId := by
  intro ids
  induction ids with
  | nil => intro s; exact ⟨rfl, rfl, rfl⟩
  | cons pid rest ih =>
      intro s
      have h1 := repairStep_core s pid
      have h2 := ih (repairStep s pid).1
      refine ⟨?_, ?_, ?_⟩
      · show (repairLoop (repairStep s pid).1 rest).1.peerOpen = s.peerOpen
        rw [h2.1, h1.1]
      · show (repairLoop (repairStep s pid).1 rest).1.localStream = s.localStream
        rw [h2.2.1, h1.2.1]
      · show (repairLoop (repairStep s pid).1 rest).1.selfId = s.selfId
        rw [h2.2.2, h1.2.2]

theorem repairLoop_dataConnView : ∀ (ids : List String) (s : OrchState) (k : String),
    dataConnView (repairLoop s ids).1.connections k = dataConnView s.connections k := by
  intro ids
  induction ids with
  | nil => intro s k; rfl
  | cons pid rest ih =>
      intro s k
      show dataConnView (repairLoop (repairStep s pid).1 rest).1.connections k
          = dataConnView s.connections k
      rw [ih (repairStep s pid).1 k, repairStep_dataConnView s pid k]

theorem repairLoop_closed : ∀ (ids : List String) (s : OrchState),
    (repairLoop s ids).2.closedMedia = [] ∧ (repairLoop s ids).2.closedData = [] := by
  intro ids
  induction ids with
  | nil => intro s; exact ⟨rfl, rfl⟩
  | cons pid rest ih =>
      intro s
      have h1 := repairStep_closed s pid
      have h2 := ih (repairStep s pid).1
      constructor
      · show ((repairStep s pid).2.app (repairLoop (repairStep s pid).1 rest).2).closedMedia = []
        unfold Effects.app
        simp [h1.1, h2.1]
      · show ((repairStep s pid).2.app (repairLoop (repairStep s pid).1 rest).2).closedData = []
        unfold Effects.app
        simp [h1.2, h2.2]

theorem repairLoop_spec : ∀ (ids : List String) (s : OrchState),
    List.Nodup ids → s.peerOpen = true → s.localStream.isSome = true →
    ∀ pid ∈ ids, pid ≠ s.selfId →
      (mediaView s.connections pid = none →
        ∃ h, (pid, h) ∈ (repairLoop s ids).2.mediaCallsPlaced)
      ∧ (¬mediaView s.connections pid = none → dataOpenAt s.connections pid = true →
        (pid, reconnectAfterScreenShareMsg s.selfId) ∈ (repairLoop s ids).2.sent) := by
  intro ids
  induction ids with
  | nil =>
      intro s _ _ _ pid hmem
      exact absurd hmem (List.not_mem_nil pid)
  | cons pid₀ rest ih =>
      intro s hnd hp hl pid hmem hself
      have hnd' := List.nodup_cons.mp hnd
      have heff : (repairLoop s (pid₀ :: rest)).2
          = Effects.app (repairStep s pid₀).2 (repairLoop (repairStep s pid₀).1 rest).2 := rfl
      rcases List.mem_cons.mp hmem with rfl | hmem'
      · constructor
        · intro hm
          obtain ⟨h, hcall⟩ := repairStep_call s pid hp hl hself hm
          refine ⟨h, ?_⟩
          rw [heff, Effects.app_calls, hcall]
          exact List.mem_append_left _ (List.mem_cons_self _ _)
        · intro hm hd
          have hsent := repairStep_reconnect s pid hself hm hd
          rw [heff, Effects.app_sent, hsent]
          exact List.mem_append_left _ (List.mem_cons_self _ _)
      · have hne0 : pid ≠ pid₀ := fun h => hnd'.1 (h ▸ hmem')
        have hcore := repairStep_core s pid₀
        have hp1 : (repairStep s pid₀).1.peerOpen = true := by rw [hcore.1]; exact hp
        have hl1 : (repairStep s pid₀).1.localStream.isSome = true := by
          rw [hcore.2.1]; exact hl
        have hself1 : pid ≠ (repairStep s pid₀).1.selfId := by
          rw [hcore.2.2]; exact hself
        have hlook : lookupConn (repairStep s pid₀).1.connections pid
            = lookupConn s.connections pid := repairStep_lookup_other s pid₀ pid hne0
        have hmv : mediaView (repairStep s pid₀).1.connections pid
            = mediaView s.connections pid := by
          unfold mediaView; rw [hlook]
        have hdv : dataOpenAt (repairStep s pid₀).1.connections pid
            = dataOpenAt s.connections pid := by
          unfold dataOpenAt dataConnView; rw [hlook]
        have IH := ih (repairStep s pid₀).1 hnd'.2 hp1 hl1 pid hmem' hself1
        constructor
        · intro hm
          obtain ⟨h, hmemCall⟩ := IH.1 (by rw [hmv]; exact hm)
          refine ⟨h, ?_⟩
          rw [heff, Effects.app_calls]
          exact List.mem_append_right _ hmemCall
        · intro hm hd
          have hmemSent := IH.2 (by rw [hmv]; exact hm) (by rw [hdv]; exact hd)
          rw [hcore.2.2] at hmemSent
          rw [heff, Effects.app_sent]
          exact List.mem_append_right _ hmemSent

theorem stopScreenState_fields (s : OrchState) :
    (stopScreenState s).connections = s.connections
    ∧ (stopScreenState s).selfId = s.selfId
    ∧ (stopScreenState s).peerOpen = s.peerOpen
    ∧ (stopScreenState s).localStream = s.localStream := by
  unfold stopScreenState
  split <;> exact ⟨rfl, rfl, rfl, rfl⟩

theorem stopScreenState_ids (s : OrchState) :
    (stopScreenState s).participants.map Participant.id
      = s.participants.map Participant.id := by
  unfold stopScreenState
  split
  · show (s.participants.map _).map Participant.id = _
    rw [List.map_map]
    refine List.map_congr_left ?_
    intro p _
    show Participant.id (if p.id != s.selfId then
      { p with transitionState := some TransitionState.reconnecting } else p) = p.id
    split <;> rfl
  · rfl

theorem knownPeerIds_stopScreenState (s : OrchState) :
    knownPeerIds (stopScreenState s) = knownPeerIds s := by
  unfold knownPeerIds
  rw [(stopScreenState_fields s).1, (stopScreenState_fields s).2.1, stopScreenState_ids s]

/-- C3 (amended): whenever a local screen share is active AND the local
camera stream is present, `stopScreenShare` closes exactly the screen
channels (and no data channel), always broadcasts `camera-stream-restored` to
every peer with an open data connection, and for every known peer id other
than self attempts a repair of the primary camera connection — a fresh call
when no media connection is registered, a `reconnect-after-screen-share`
message when one is registered and the peer's data connection is open; a
peer with a registered media connection but no open data connection receives
no repair attempt, and when the local camera stream is absent neither the
broadcast nor any repair happens (see the counterexample). -/
theorem stopScreenShare_restores_camera (s : OrchState)
    (hp : s.peerOpen = true) (hss : ¬s.screenStream = none)
    (hls : ¬s.localStream = none) (hnd : (knownPeerIds s).Nodup) :
    (stopScreenShare s).2.closedMedia = s.screenConnections.map Prod.snd
    ∧ (stopScreenShare s).2.closedData = []
    ∧ (∀ pid, dataOpenAt s.connections pid = true →
        (pid, cameraRestoredMsg s.selfId) ∈ (stopScreenShare s).2.sent)
    ∧ ∀ pid ∈ knownPeerIds s, pid ≠ s.selfId →
        (mediaView s.connections pid = none →
          ∃ h, (pid, h) ∈ (stopScreenShare s).2.mediaCallsPlaced)
        ∧ (¬mediaView s.connections pid = none → dataOpenAt s.connections pid = true →
          (pid, reconnectAfterScreenShareMsg s.selfId) ∈ (stopScreenShare s).2.sent) := by
  have hg : ¬(s.peerOpen = false ∨ s.screenStream = none) := by
    push_neg
    exact ⟨by simp [hp], hss⟩
  have hin : (stopScreenState s).localStream.isNone = false := by
    rw [(stopScreenState_fields s).2.2.2]
    cases hc : s.localStream
    · exact absurd hc hls
    · rfl
  have hcore := repairLoop_core (knownPeerIds (stopScreenState s)) (stopScreenState s)
  have hpr : (repairLoop (stopScreenState s) (knownPeerIds (stopScreenState s))).1.peerOpen
      = true := by
    rw [hcore.1, (stopScreenState_fields s).2.2.1]
    exact hp
  have hselfr : (repairLoop (stopScreenState s) (knownPeerIds (stopScreenState s))).1.selfId
      = s.selfId := by
    rw [hcore.2.2, (stopScreenState_fields s).2.1]
  have hclosed := repairLoop_closed (knownPeerIds (stopScreenState s)) (stopScreenState s)
  simp only [stopScreenShare, if_neg hg, hin, Bool.false_eq_true, if_false, Effects.app]
  refine ⟨?_, ?_, ?_, ?_⟩
  · simp [hclosed.1]
  · simp [hclosed.2]
  · intro pid hopen
    have hdcv : dataConnView
        (repairLoop (stopScreenState s) (knownPeerIds (stopScreenState s))).1.connections pid
        = dataConnView s.connections pid := by
      rw [repairLoop_dataConnView (knownPeerIds (stopScreenState s)) (stopScreenState s) pid]
      unfold dataConnView
      rw [(stopScreenState_fields s).1]
    have hopenr : dataOpenAt
        (repairLoop (stopScreenState s) (knownPeerIds (stopScreenState s))).1.connections pid
        = true := by
      unfold dataOpenAt
      rw [hdcv]
      exact hopen
    rw [hselfr]
    have hmem := sendDataToAll_mem_of_openAt
      (repairLoop (stopScreenState s) (knownPeerIds (stopScreenState s))).1
      (cameraRestoredMsg s.selfId) pid hpr hopenr
    exact List.mem_append_right _ (List.mem_append_right _ hmem)
  · intro pid hmem hself
    have hspec := repairLoop_spec (knownPeerIds (stopScreenState s)) (stopScreenState s)
      (by rw [knownPeerIds_stopScreenState]; exact hnd)
      (by rw [(stopScreenState_fields s).2.2.1]; exact hp)
      (by rw [(stopScreenState_fields s).2.2.2]
          cases hc : s.localStream
          · exact absurd hc hls
          · rfl)
      pid
      (by rw [knownPeerIds_stopScreenState]; exact hmem)
      (by rw [(stopScreenState_fields s).2.1]; exact hself)
    rw [(stopScreenState_fields s).1] at hspec
    constructor
    · intro hm
      obtain ⟨h, hcall⟩ := hspec.1 hm
      refine ⟨h, ?_⟩
      exact List.mem_append_right _ (List.mem_append_left _ hcall)
    · intro hm hd
      have hsent := hspec.2 hm hd
      rw [(stopScreenState_fields s).2.1] at hsent
      exact List.mem_append_right _ (List.mem_append_left _ hsent)

/-- Fixture for the first half of the C3 counterexample: a screen share is
active (`screenStream` set) but the local camera stream is gone. -/
def c3NoCamState : OrchState :=
  { roomId := "r", selfId := "r-creator", isCreator := true, localUsername := "h"
    localStream := none, screenStream := some 10, isScreenSharing := true
    connections := [("x", { mediaConnection := some { handle := 1 }
                            dataConnection := some { handle := 2, isOpen := true } })]
    screenConnections := [("x", 8)]
    participants := [{ id := "x", username := "u", stream := 0, isCreator := false }] }

/-- Fixture for the second half of the C3 counterexample: camera present, and
the known peer `y` holds a media connection while its data connection is
closed. -/
def c3ClosedDataState : OrchState :=
  { roomId := "r", selfId := "r-creator", isCreator := true, localUsername := "h"
    localStream := some 0, screenStream := some 10, isScreenSharing := true
    connections := [("y", { mediaConnection := some { handle := 1 }
                            dataConnection := some { handle := 2, isOpen := false } })]
    screenConnections := [("y", 8)]
    participants := [{ id := "y", username := "u", stream := 0, isCreator := false }] }

/-- C3 counterexample: the claim as stated is false on two concrete states.
With an active screen share but no local camera stream, `stopScreenShare`
emits no `camera-stream-restored` message at all; and with the camera
present, the known peer `y` — whose media connection exists but whose data
connection is not open — receives neither a fresh call nor a
`reconnect-after-screen-share` message. -/
theorem stopScreenShare_claim_counterexample :
    (c3NoCamState.screenStream.isSome = true
      ∧ (stopScreenShare c3NoCamState).2.sent.filter
          (fun e => e.2.type == "camera-stream-restored") = [])
    ∧ (c3ClosedDataState.screenStream.isSome = true
      ∧ "y" ∈ knownPeerIds c3ClosedDataState
      ∧ (stopScreenShare c3ClosedDataState).2.mediaCallsPlaced = []
      ∧ (stopScreenShare c3ClosedDataState).2.sent.filter
          (fun e => e.2.type == "reconnect-after-screen-share") = []) := by
  decide

/-- Fixture for the C3 witness: two known peers, `a` with media and open
data, `b` with open data but no media connection. -/
def c3WitnessState : OrchState :=
  { roomId := "r", selfId := "r-creator", isCreator := true, localUsername := "h"
    localStream := some 0, screenStream := some 10, isScreenSharing := true
    connections :=
      [("a", { mediaConnection := some { handle := 1 }
               dataConnection := some { handle := 2, isOpen := true } }),
       ("b", { dataConnection := some { handle := 4, isOpen := true } })]
    screenConnections := [("a", 8), ("b", 9)]
    participants :=
      [{ id := "a", username := "u", stream := 0, isCreator := false },
       { id := "b", username := "v", stream := 0, isCreator := false }] }

theorem stopScreenShare_restores_camera_witness :
    c3WitnessState.peerOpen = true
    ∧ (stopScreenShare c3WitnessState).2.closedMedia
        = c3WitnessState.screenConnections.map Prod.snd
    ∧ ("a", cameraRestoredMsg c3WitnessState.selfId)
        ∈ (stopScreenShare c3WitnessState).2.sent :=
  ⟨rfl,
    (stopScreenShare_restores_camera c3WitnessState rfl (by decide) (by decide)
      (by decide)).1,
    (stopScreenShare_restores_camera c3WitnessState rfl (by decide) (by decide)
      (by decide)).2.2.1 "a" (by decide)⟩

end WebRTC
